import Mathlib

/-!
# server.js: request pipeline, error handlers, session configuration, shutdown

A shallow embedding of `src/web-server/server.js`.

The file wires an Express 4 application.  The stages written in the file itself
(the session guard, the database middleware, the heartbeat route, the 404 catch
and the two error handlers) are embedded as functions on an explicit handler
state: the request, the response object, the list of calls made to `next`, and
the exception thrown, if any.

The calls the stages make on the response object (`res.status`, `res.send`,
`res.json`, `res.sendStatus`) are embedded step by step after Express 4 and
Node: the entity tag is generated, the freshness of a conditional GET or HEAD
turns the status into 304, the body is removed at 204 and 304 and for HEAD, the
status code is coerced to a 32-bit integer and must lie in 100..999 when the
head is written (otherwise the call throws and nothing is sent), the first
response written is the one the client receives, and setting or removing a
header afterwards throws.  The functions of the runtime whose result the file
does not fix (the entity tag of a body, the parsing of dates and of header
lists) are taken as a parameter.

Configuration objects (the CORS options, the session options) are embedded as
the values the source passes, the multiplication of line 105 as a
multiplication of doubles; the process-level code (`cleanup` and the signal
bindings) is embedded as a step function on a process state.
-/

namespace WebServer

/-! ## JavaScript values used by the file -/

/-- An `Error` object as the handlers use it: its `message` and its optional
numeric `status` property. -/
structure JsError where
  message : String
  status : Option Nat
deriving DecidableEq, Repr

/-- The values that appear as fields of the objects built in the file. -/
inductive JsVal where
  | undefined
  | bool (b : Bool)
  | num (n : Nat)
  | str (s : String)
  | strs (xs : List String)
  | error (e : JsError)
deriving DecidableEq, Repr

/-- The operator `a || b` on an optional number: `undefined` and `0` are falsy,
every other number is truthy. -/
def jsOrNum (a : Option Nat) (b : Nat) : Nat :=
  match a with
  | some n => if n = 0 then b else n
  | none => b

/-- The operator `a || b` on an optional string: `undefined` and the empty
string are falsy, every other string is truthy. -/
def jsOrStr (a : Option String) (b : String) : String :=
  match a with
  | some s => if s = "" then b else s
  | none => b

/-- An object literal evaluated left to right: a key written twice keeps its
first position and takes the later value. -/
def objSet (o : List (String × JsVal)) (k : String) (v : JsVal) : List (String × JsVal) :=
  match o with
  | [] => [(k, v)]
  | (k0, v0) :: rest => if k0 = k then (k0, v) :: rest else (k0, v0) :: objSet rest k v

/-- The object denoted by an object literal, given its properties in source
order. -/
def objLiteral (props : List (String × JsVal)) : List (String × JsVal) :=
  props.foldl (fun o kv => objSet o kv.1 kv.2) []

/-- Property read `o[k]`. -/
def objGet (o : List (String × JsVal)) (k : String) : JsVal :=
  match o.find? (fun kv => kv.1 = k) with
  | some kv => kv.2
  | none => JsVal.undefined

/-- The own keys of an object, in order. -/
def objKeys (o : List (String × JsVal)) : List String :=
  o.map (fun kv => kv.1)

/-! ## Request, response, handler state -/

/-- The body of a response as handed to the response object. -/
inductive Body where
  | empty
  | text (s : String)
  | json (v : JsVal)
  | jsonObject (fields : List (String × JsVal))
deriving DecidableEq, Repr

/-- What is written to the client: the status code of the head and the body. -/
structure Response where
  status : Nat
  body : Body
deriving DecidableEq, Repr

/-- The response object `res`: the current `statusCode` property, the `ETag`
and `Last-Modified` headers set so far, and the response already written to
the client, if any. -/
structure Res where
  statusCode : Nat
  etag : Option String
  lastModified : Option String
  wire : Option Response
deriving DecidableEq, Repr

/-- A response object on which nothing has been set or sent. -/
def Res.fresh : Res :=
  { statusCode := 200, etag := none, lastModified := none, wire := none }

/-- The handle of the store connection (`mongoose.connection`). -/
structure Db where
  uri : String
deriving DecidableEq, Repr

/-- The request object `req`: method, path, the conditional request headers
read when a response is sent, and the properties the file writes. -/
structure Req where
  method : String
  path : String
  ifNoneMatch : Option String
  ifModifiedSince : Option String
  cacheControl : Option String
  session : Option (List (String × JsVal))
  database : Option Db
deriving DecidableEq, Repr

/-- The functions of Express and Node whose results the file does not fix:
the entity tag generated for a body (`app.get('etag fn')`), the test for
`no-cache` in a `Cache-Control` value, the splitting of an `If-None-Match`
value into tags, the comparison `parseHttpDate(a) <= parseHttpDate(b)`, and
whether this version of Express also empties the body at status 205. -/
structure Runtime where
  etagOf : Body → String
  isNoCache : String → Bool
  tokenList : String → List String
  dateLE : String → String → Bool
  strips205 : Bool

/-- The state of one handler invocation: request, response, the arguments of
the calls made to `next` (in order), and the exception thrown, if any. -/
structure HState where
  req : Req
  res : Res
  nexts : List (Option JsError)
  thrown : Option JsError
deriving DecidableEq, Repr

/-- The state in which a handler is entered. -/
def HState.enter (req : Req) (res : Res) : HState :=
  { req := req, res := res, nexts := [], thrown := none }

/-- The exception Node raises when a header is set after the headers were
sent. -/
def headersSentError : JsError :=
  { message := "Cannot set headers after they are sent to the client", status := none }

/-- The exception Node raises when a header is removed after the headers were
sent. -/
def headersSentRemoveError : JsError :=
  { message := "Cannot remove headers after they are sent to the client", status := none }

/-- The exception Node raises when the head is written with a status code
outside 100..999. -/
def invalidStatusError (code : Nat) : JsError :=
  { message := "Invalid status code: " ++ toString code, status := none }

/-- Truthiness of an optional string: `undefined` and the empty string are
falsy. -/
def jsTruthy (a : Option String) : Bool :=
  match a with
  | some s => s != ""
  | none => false

/-- The coercion `statusCode |= 0` on a non-negative integer: reduction modulo
2^32 read as a signed 32-bit integer. -/
def toInt32 (n : Nat) : Int :=
  if n % 4294967296 < 2147483648 then ((n % 4294967296 : Nat) : Int)
  else ((n % 4294967296 : Nat) : Int) - 4294967296

/-- The status code Node writes in the head: the coerced code when it lies in
100..999, nothing (the write throws) otherwise. -/
def wireStatus (n : Nat) : Option Nat :=
  if 100 ≤ toInt32 n ∧ toInt32 n ≤ 999 then some (toInt32 n).toNat else none

/-- The function `fresh(reqHeaders, resHeaders)`: whether a conditional request
is satisfied by the entity tag and modification date of the response. -/
def fresh (rt : Runtime) (req : Req) (etag lastModified : Option String) : Bool :=
  if !jsTruthy req.ifModifiedSince && !jsTruthy req.ifNoneMatch then false
  else if jsTruthy req.cacheControl && rt.isNoCache (req.cacheControl.getD "") then false
  else if jsTruthy req.ifNoneMatch && req.ifNoneMatch != some "*"
      && (!jsTruthy etag
        || !(rt.tokenList (req.ifNoneMatch.getD "")).any (fun m =>
              m == etag.getD "" || m == "W/" ++ etag.getD "" || "W/" ++ m == etag.getD ""))
    then false
  else if jsTruthy req.ifModifiedSince
      && (!jsTruthy lastModified
        || !rt.dateLE (lastModified.getD "") (req.ifModifiedSince.getD ""))
    then false
  else true

/-- The getter `req.fresh`: only GET and HEAD, only with a status 2xx or 304
on the response object. -/
def reqFresh (rt : Runtime) (req : Req) (res : Res) : Bool :=
  (req.method == "GET" || req.method == "HEAD")
    && ((200 ≤ res.statusCode && res.statusCode < 300) || res.statusCode == 304)
    && fresh rt req res.etag res.lastModified

/-- The entity tag step of `res.send(body)`: when no `ETag` header is set and
the generated tag is not empty, the header is set to it. -/
def withETag (rt : Runtime) (b : Body) (res : Res) : Res :=
  if jsTruthy res.etag then res
  else if rt.etagOf b = "" then res
  else { res with etag := some (rt.etagOf b) }

/-- The freshness step of `res.send`: `if (req.fresh) this.statusCode = 304`. -/
def withFreshness (rt : Runtime) (req : Req) (res : Res) : Res :=
  if reqFresh rt req res then { res with statusCode := 304 } else res

/-- Whether `res.send` empties the body and removes the content headers at the
status reached: 204 and 304, and 205 where this version does so. -/
def stripsBody (rt : Runtime) (code : Nat) : Bool :=
  code == 204 || code == 304 || (rt.strips205 && code == 205)

/-- Call `res.status(code)`: sets the status code property. -/
def resStatus (code : Nat) (s : HState) : HState :=
  if s.thrown.isSome then s
  else { s with res := { s.res with statusCode := code } }

/-- The end of the response with the given body: nothing more reaches the
client when a response was already written; otherwise the head is written
with the coerced status code, which throws outside 100..999, and Node sends no
body for HEAD and at the status codes 1xx, 204 and 304. -/
def endResponse (chunk : Body) (s : HState) : HState :=
  match s.res.wire with
  | some _ => s
  | none =>
    match wireStatus s.res.statusCode with
    | none => { s with thrown := some (invalidStatusError s.res.statusCode) }
    | some code =>
      let bodiless : Bool :=
        s.req.method == "HEAD" || (100 ≤ code && code ≤ 199) || code == 204 || code == 304
      { s with res := { s.res with wire := some ⟨code, if bodiless then Body.empty else chunk⟩ } }

/-- Call `res.send()` with no argument: no content header is set and no entity
tag generated; the freshness step, the removal of the content headers at a
stripped status (which throws once the headers are sent), and the end of the
response with an empty body. -/
def resSend (rt : Runtime) (s : HState) : HState :=
  if s.thrown.isSome then s
  else
    let s1 : HState := { s with res := withFreshness rt s.req s.res }
    if stripsBody rt s1.res.statusCode && s1.res.wire.isSome then
      { s1 with thrown := some headersSentRemoveError }
    else endResponse Body.empty s1

/-- Call `res.send(body)` with a body whose content type the caller sets: the
content type cannot be set once the headers are sent (the call throws);
otherwise the entity tag step, the freshness step, the emptying of the body at
a stripped status, and the end of the response. -/
def resSendBody (rt : Runtime) (b : Body) (s : HState) : HState :=
  if s.thrown.isSome then s
  else match s.res.wire with
    | some _ => { s with thrown := some headersSentError }
    | none =>
      let s1 : HState := { s with res := withFreshness rt s.req (withETag rt b s.res) }
      endResponse (if stripsBody rt s1.res.statusCode then Body.empty else b) s1

/-- Call `res.json(v)` on a single value. -/
def resJson (rt : Runtime) (v : JsVal) (s : HState) : HState :=
  resSendBody rt (Body.json v) s

/-- Call `res.json(...)` on an object literal with the given properties. -/
def resJsonObject (rt : Runtime) (props : List (String × JsVal)) (s : HState) : HState :=
  resSendBody rt (Body.jsonObject (objLiteral props)) s

/-- The status texts registered for the status codes. -/
def statusMessage (code : Nat) : Option String :=
  match code with
  | 100 => some "Continue"
  | 101 => some "Switching Protocols"
  | 102 => some "Processing"
  | 103 => some "Early Hints"
  | 200 => some "OK"
  | 201 => some "Created"
  | 202 => some "Accepted"
  | 203 => some "Non-Authoritative Information"
  | 204 => some "No Content"
  | 205 => some "Reset Content"
  | 206 => some "Partial Content"
  | 207 => some "Multi-Status"
  | 208 => some "Already Reported"
  | 226 => some "IM Used"
  | 300 => some "Multiple Choices"
  | 301 => some "Moved Permanently"
  | 302 => some "Found"
  | 303 => some "See Other"
  | 304 => some "Not Modified"
  | 305 => some "Use Proxy"
  | 307 => some "Temporary Redirect"
  | 308 => some "Permanent Redirect"
  | 400 => some "Bad Request"
  | 401 => some "Unauthorized"
  | 402 => some "Payment Required"
  | 403 => some "Forbidden"
  | 404 => some "Not Found"
  | 405 => some "Method Not Allowed"
  | 406 => some "Not Acceptable"
  | 407 => some "Proxy Authentication Required"
  | 408 => some "Request Timeout"
  | 409 => some "Conflict"
  | 410 => some "Gone"
  | 411 => some "Length Required"
  | 412 => some "Precondition Failed"
  | 413 => some "Payload Too Large"
  | 414 => some "URI Too Long"
  | 415 => some "Unsupported Media Type"
  | 416 => some "Range Not Satisfiable"
  | 417 => some "Expectation Failed"
  | 421 => some "Misdirected Request"
  | 422 => some "Unprocessable Entity"
  | 423 => some "Locked"
  | 424 => some "Failed Dependency"
  | 426 => some "Upgrade Required"
  | 428 => some "Precondition Required"
  | 429 => some "Too Many Requests"
  | 431 => some "Request Header Fields Too Large"
  | 451 => some "Unavailable For Legal Reasons"
  | 500 => some "Internal Server Error"
  | 501 => some "Not Implemented"
  | 502 => some "Bad Gateway"
  | 503 => some "Service Unavailable"
  | 504 => some "Gateway Timeout"
  | 505 => some "HTTP Version Not Supported"
  | 506 => some "Variant Also Negotiates"
  | 507 => some "Insufficient Storage"
  | 508 => some "Loop Detected"
  | 510 => some "Not Extended"
  | 511 => some "Network Authentication Required"
  | _ => none

/-- Call `res.sendStatus(code)`: sets the status code and sends the registered
status text (or the code written out) as the body. -/
def resSendStatus (rt : Runtime) (code : Nat) (s : HState) : HState :=
  resSendBody rt (Body.text ((statusMessage code).getD (toString code))) (resStatus code s)

/-- Call `next()` or `next(err)`. -/
def callNext (arg : Option JsError) (s : HState) : HState :=
  if s.thrown.isSome then s
  else { s with nexts := s.nexts ++ [arg] }

/-! ## The stages written in server.js -/

/-- Lines 119-127: the session guard. -/
def sessionGuard (s : HState) : HState :=
  let s1 : HState :=
    match s.req.session with
    | some _ => s
    | none => { s with req := { s.req with session := some [] } }
  callNext none s1

/-- Lines 134-138: the database middleware. -/
def databaseMiddleware (db : Db) (s : HState) : HState :=
  callNext none { s with req := { s.req with database := some db } }

/-- Line 158: the handler of `GET /heartbeat`. -/
def heartbeat (rt : Runtime) (s : HState) : HState :=
  resSendStatus rt 200 s

/-- The error built by the 404 catch: `new Error('Not Found')` with
`status = 404`. -/
def notFoundError : JsError := { message := "Not Found", status := some 404 }

/-- Lines 167-174: the 404 catch. -/
def notFoundCatch (rt : Runtime) (s : HState) : HState :=
  let err := notFoundError
  callNext (some err) (resJson rt (JsVal.error err) s)

/-- Lines 178-181: the development error handler. -/
def devErrorHandler (rt : Runtime) (err : JsError) (s : HState) : HState :=
  resJsonObject rt [("message", JsVal.str err.message), ("error", JsVal.error err)]
    (resStatus (jsOrNum err.status 500) s)

/-- Lines 186-189: the production error handler. -/
def prodErrorHandler (rt : Runtime) (err : JsError) (s : HState) : HState :=
  resSend rt (resStatus (jsOrNum err.status 404) s)

/-! ## The middleware stack -/

/-- A layer of the stack: a middleware `(req, res, next)` or an error handler
`(err, req, res, next)`, with a label used to trace invocations. -/
inductive Layer where
  | middleware (label : String) (h : HState → HState)
  | errorHandler (label : String) (h : JsError → HState → HState)

/-- The result of running the stack: final request and response, the labels
of the layers invoked, in order, and, when the stack was exhausted with a call
to `next` outstanding, the argument of that call (the request is then left to
the final handler of Express, which is not part of the file). -/
structure Run where
  req : Req
  res : Res
  trace : List String
  unhandled : Option (Option JsError)
deriving DecidableEq, Repr

/-- How the stack continues after a handler returns: with the thrown exception
as the error, else with the argument of the first call to `next`, else not at
all. -/
def continuation (o : HState) : Option (Option JsError) :=
  match o.thrown with
  | some e => some (some e)
  | none => o.nexts.head?

/-- The router loop: with no error pending the error handlers are skipped, with
an error pending the middlewares are skipped. -/
def dispatch : List Layer → Option JsError → Req → Res → List String → Run
  | [], err, req, res, tr => { req := req, res := res, trace := tr, unhandled := some err }
  | Layer.middleware label h :: rest, none, req, res, tr =>
    let o := h (HState.enter req res)
    match continuation o with
    | some arg => dispatch rest arg o.req o.res (tr ++ [label])
    | none => { req := o.req, res := o.res, trace := tr ++ [label], unhandled := none }
  | Layer.middleware _ _ :: rest, some e, req, res, tr => dispatch rest (some e) req res tr
  | Layer.errorHandler label h :: rest, some e, req, res, tr =>
    let o := h e (HState.enter req res)
    match continuation o with
    | some arg => dispatch rest arg o.req o.res (tr ++ [label])
    | none => { req := o.req, res := o.res, trace := tr ++ [label], unhandled := none }
  | Layer.errorHandler _ _ :: rest, none, req, res, tr => dispatch rest none req res tr

/-- The value of `app.get('env')`: `process.env.NODE_ENV || 'development'`. -/
def appEnv (nodeEnv : Option String) : String :=
  jsOrStr nodeEnv "development"

/-- Line 113: `process.env.NODE_ENV || 'dev'`. -/
def loggerEnv (nodeEnv : Option String) : String :=
  jsOrStr nodeEnv "dev"

/-- Line 115: whether the access logger is installed. -/
def loggingEnabled (nodeEnv : Option String) : Bool :=
  loggerEnv nodeEnv == "dev"

/-- Line 177: whether the development error handler is registered. -/
def devHandlerRegistered (nodeEnv : Option String) : Bool :=
  appEnv nodeEnv == "development"

/-- Lines 176-189: the error handlers registered, in order. -/
def errorHandlers (rt : Runtime) (nodeEnv : Option String) : List Layer :=
  (if devHandlerRegistered nodeEnv then
      [Layer.errorHandler "devErrorHandler" (devErrorHandler rt)]
   else []) ++ [Layer.errorHandler "prodErrorHandler" (prodErrorHandler rt)]

/-- Lines 166-189: the 404 catch followed by the error handlers. -/
def fallthroughStack (rt : Runtime) (nodeEnv : Option String) : List Layer :=
  Layer.middleware "notFoundCatch" (notFoundCatch rt) :: errorHandlers rt nodeEnv

/-- Lines 119-138: the two middlewares in front of the routes. -/
def contextStack (db : Db) : List Layer :=
  [Layer.middleware "sessionGuard" sessionGuard,
   Layer.middleware "databaseMiddleware" (databaseMiddleware db)]

/-! ## Configuration objects -/

/-- A non-negative integer-valued JavaScript number, or `Infinity`. -/
inductive JsNumber where
  | finite (n : Nat)
  | infinity
deriving DecidableEq, Repr

/-- The least `e` from `e0` on, among `k` candidates, with `n < 2 ^ (53 + e)`:
the binary exponent of the last place of the double nearest to `n`. -/
def lastPlace (n : Nat) : Nat → Nat → Option Nat
  | 0, _ => none
  | k + 1, e => if n < 2 ^ (53 + e) then some e else lastPlace n k (e + 1)

/-- The double nearest to a natural number, ties to the even significand;
`Infinity` from 2^1024 - 2^970 on. -/
def roundToDouble (n : Nat) : JsNumber :=
  match lastPlace n 972 0 with
  | none => JsNumber.infinity
  | some e =>
    let q := n / 2 ^ e
    let r := n % 2 ^ e
    let q1 := if 2 ^ e < 2 * r ∨ (2 * r = 2 ^ e ∧ q % 2 = 1) then q + 1 else q
    if e = 971 ∧ q1 = 2 ^ 53 then JsNumber.infinity else JsNumber.finite (q1 * 2 ^ e)

/-- The product `a * b` of two non-negative integer-valued doubles: the exact
product rounded to the nearest double. -/
def jsMul (a b : Nat) : JsNumber :=
  roundToDouble (a * b)

/-- The `server` section of `server-settings`.  The session duration is taken
to be a non-negative whole number of seconds. -/
structure ServerSettings where
  name : String
  port : Option Nat
  sessionDurationSeconds : Nat
deriving DecidableEq, Repr

/-- The `database` section of `server-settings`. -/
structure DatabaseSettings where
  url : String
  port : Nat
  collection : String
  user : String
  password : String
deriving DecidableEq, Repr

/-- The record exported by `server-settings`. -/
structure Settings where
  server : ServerSettings
  database : DatabaseSettings
deriving DecidableEq, Repr

/-- Lines 53-61: the properties of the object literal given to `cors`, in
source order. -/
def corsOptionsSource : List (String × JsVal) :=
  [("allowedHeaders",
      JsVal.strs ["sessionId", "Origin", "X-Requested-With", "Content-Type",
        "Authorization", "Accept"]),
   ("exposedHeaders", JsVal.strs ["sessionId"]),
   ("origin", JsVal.str "*"),
   ("methods", JsVal.str "GET,HEAD,PUT,PATCH,POST,DELETE,OPTIONS"),
   ("preflightContinue", JsVal.bool false),
   ("credentials", JsVal.bool true),
   ("origin", JsVal.bool true)]

/-- The options object that `cors` receives. -/
def corsOptions : List (String × JsVal) :=
  objLiteral corsOptionsSource

/-- Line 77: the connection string. -/
def connectString (st : Settings) : String :=
  "mongodb://" ++ st.database.user ++ ":" ++ st.database.password ++ "@" ++ st.database.url
    ++ ":" ++ toString st.database.port ++ "/" ++ st.database.collection ++ "?authSource=admin"

/-- Line 96: the secret given to `cookieParser`. -/
def cookieParserSecret (st : Settings) : String :=
  st.server.name ++ " SessionSecret"

/-- The `cookie` property of the session options. -/
structure CookieOptions where
  httpOnly : Bool
  maxAge : JsNumber
deriving DecidableEq, Repr

/-- The options object given to `session`. -/
structure SessionOptions where
  storeUrl : String
  name : String
  secret : String
  resave : Bool
  saveUninitialized : Bool
  cookie : CookieOptions
deriving DecidableEq, Repr

/-- Lines 99-106: the session options. -/
def sessionOptions (st : Settings) : SessionOptions :=
  { storeUrl := connectString st
    name := st.server.name ++ " Cookie"
    secret := st.server.name ++ " SessionSecret"
    resave := false
    saveUninitialized := false
    cookie := { httpOnly := true, maxAge := jsMul st.server.sessionDurationSeconds 1000 } }

/-! ## Process signals -/

/-- The signals the file binds. -/
inductive Signal where
  | SIGINT
  | SIGTERM
deriving DecidableEq, Repr

/-- The process as the shutdown code sees it: how many times `db.close()` was
invoked, and the exit code once the process has exited. -/
structure Proc where
  dbCloseCalls : Nat
  exitCode : Option Nat
deriving DecidableEq, Repr

/-- Call `db.close()`. -/
def dbClose (p : Proc) : Proc :=
  { p with dbCloseCalls := p.dbCloseCalls + 1 }

/-- Call `process.exit()`: the process ends with code 0. -/
def processExit (p : Proc) : Proc :=
  { p with exitCode := some 0 }

/-- Lines 146-149: `cleanup`. -/
def cleanup (p : Proc) : Proc :=
  processExit (dbClose p)

/-- Lines 151-152: the listener bound to each signal. -/
def signalListener : Signal → Proc → Proc
  | Signal.SIGINT => cleanup
  | Signal.SIGTERM => cleanup

/-- Delivery of one signal: a process that has exited runs nothing. -/
def deliver (p : Proc) (sig : Signal) : Proc :=
  if p.exitCode.isSome then p else signalListener sig p

/-- Delivery of a sequence of signals, in order. -/
def deliverAll (p : Proc) (sigs : List Signal) : Proc :=
  sigs.foldl deliver p

/-! ## The stage discipline -/

/-- Whether a handler run sent a response: nothing was written on entry and a
response is written on exit. -/
def sentResponse (before : Res) (o : HState) : Bool :=
  before.wire.isNone && o.res.wire.isSome

/-- The number of calls the handler made to `next`. -/
def nextCount (o : HState) : Nat :=
  o.nexts.length

/-- The discipline of a stage: it sends a response and does not call `next`, or
it sends nothing and calls `next` exactly once. -/
def obeysDiscipline (before : Res) (o : HState) : Bool :=
  (sentResponse before o && nextCount o == 0) || (!sentResponse before o && nextCount o == 1)

/-! ## Concrete inputs used below -/

/-- A runtime for closed evaluations; at the requests evaluated below none of
its functions decides the outcome. -/
def sampleRuntime : Runtime :=
  { etagOf := fun _ => "W/sample"
    isNoCache := fun c => c == "no-cache"
    tokenList := fun v => [v]
    dateLE := fun a b => a == b
    strips205 := false }

/-- A request, without conditional headers, for a path that no route matches. -/
def sampleReq : Req :=
  { method := "GET", path := "/nope", ifNoneMatch := none, ifModifiedSince := none,
    cacheControl := none, session := none, database := none }

/-- A heartbeat request, without conditional headers, arriving with a session
and the store handle. -/
def heartbeatReq : Req :=
  { method := "GET", path := "/heartbeat", ifNoneMatch := none, ifModifiedSince := none,
    cacheControl := none,
    session := some [("passport", JsVal.str "user-1")],
    database := some { uri := "mongodb://localhost" } }

/-- A conditional heartbeat request: `If-None-Match: *`. -/
def conditionalHeartbeatReq : Req :=
  { method := "GET", path := "/heartbeat", ifNoneMatch := some "*",
    ifModifiedSince := none, cacheControl := none, session := none, database := none }

/-- An error whose `status` property is the number 0. -/
def zeroStatusError : JsError := { message := "boom", status := some 0 }

/-- An error whose `status` property is the number 99. -/
def lowStatusError : JsError := { message := "low", status := some 99 }

/-- An error whose `status` property is the number 204. -/
def noContentError : JsError := { message := "nothing", status := some 204 }

/-- An error with a status of its own. -/
def teapotError : JsError := { message := "teapot", status := some 418 }

/-- Settings whose session duration is 2^53 - 1 seconds. -/
def longSessionSettings : Settings :=
  { server := { name := "ONB", port := some 3000, sessionDurationSeconds := 9007199254740991 }
    database := { url := "localhost", port := 27017, collection := "onb", user := "u",
                  password := "p" } }

/-- Settings with a session duration of one hour. -/
def hourSessionSettings : Settings :=
  { server := { name := "ONB", port := some 3000, sessionDurationSeconds := 3600 }
    database := { url := "localhost", port := 27017, collection := "onb", user := "u",
                  password := "p" } }

end WebServer

namespace WebServer

/-! ## Basic facts about the response operations -/

theorem objLiteral_message_error (m : String) (e : JsError) :
    objLiteral [("message", JsVal.str m), ("error", JsVal.error e)]
      = [("message", JsVal.str m), ("error", JsVal.error e)] := by
  simp [objLiteral, objSet]

theorem jsOrNum_of_pos (n d : Nat) (h : n ≠ 0) : jsOrNum (some n) d = n := by
  simp [jsOrNum, h]

theorem jsOrNum_none (d : Nat) : jsOrNum none d = d := rfl

theorem jsOrNum_zero (d : Nat) : jsOrNum (some 0) d = d := rfl

theorem toInt32_of_lt (n : Nat) (h : n < 2147483648) : toInt32 n = (n : Int) := by
  have hm : n % 4294967296 = n := Nat.mod_eq_of_lt (by omega)
  simp [toInt32, hm, h]

theorem wireStatus_of_range (n : Nat) (hlo : 100 ≤ n) (hhi : n ≤ 999) :
    wireStatus n = some n := by
  have h32 : toInt32 n = (n : Int) := toInt32_of_lt n (by omega)
  have h1 : (100 : Int) ≤ (n : Int) := by exact_mod_cast hlo
  have h2 : (n : Int) ≤ 999 := by exact_mod_cast hhi
  simp [wireStatus, h32, h1, h2]

theorem wireStatus_of_small (n : Nat) (h : n < 100) : wireStatus n = none := by
  have h32 : toInt32 n = (n : Int) := toInt32_of_lt n (by omega)
  have h1 : ¬ (100 : Int) ≤ (n : Int) := by
    intro hc
    have : 100 ≤ n := by exact_mod_cast hc
    omega
  simp [wireStatus, h32, h1]

theorem withETag_statusCode (rt : Runtime) (b : Body) (res : Res) :
    (withETag rt b res).statusCode = res.statusCode := by
  unfold withETag
  split
  · rfl
  · split <;> rfl

theorem withETag_wire (rt : Runtime) (b : Body) (res : Res) :
    (withETag rt b res).wire = res.wire := by
  unfold withETag
  split
  · rfl
  · split <;> rfl

/-- A request is never fresh at a status outside 2xx and 304. -/
theorem reqFresh_of_status (rt : Runtime) (req : Req) (res : Res)
    (h : ¬ (200 ≤ res.statusCode ∧ res.statusCode < 300)) (h304 : res.statusCode ≠ 304) :
    reqFresh rt req res = false := by
  have h1 : (decide (200 ≤ res.statusCode) && decide (res.statusCode < 300)) = false := by
    by_cases a : 200 ≤ res.statusCode
    · have : ¬ res.statusCode < 300 := fun b => h ⟨a, b⟩
      simp [this]
    · simp [a]
  simp [reqFresh, h1, h304]

/-- A request without `If-None-Match` and `If-Modified-Since` is never fresh. -/
theorem reqFresh_unconditional (rt : Runtime) (req : Req) (res : Res)
    (h1 : req.ifNoneMatch = none) (h2 : req.ifModifiedSince = none) :
    reqFresh rt req res = false := by
  simp [reqFresh, fresh, jsTruthy, h1, h2]

/-- The run of `res.send(body)` on a response not yet sent, when the request is
not fresh and the status code is one Node accepts. -/
theorem resSendBody_stale (rt : Runtime) (b : Body) (req : Req) (res : Res)
    (hunsent : res.wire = none) (hlo : 100 ≤ res.statusCode) (hhi : res.statusCode ≤ 999)
    (hstale : reqFresh rt req (withETag rt b res) = false) :
    resSendBody rt b (HState.enter req res)
      = { req := req
          res := { withETag rt b res with
                   wire := some ⟨res.statusCode,
                     if (req.method == "HEAD" || (100 ≤ res.statusCode && res.statusCode ≤ 199)
                          || res.statusCode == 204 || res.statusCode == 304) = true
                     then Body.empty
                     else if stripsBody rt res.statusCode = true then Body.empty else b⟩ }
          nexts := []
          thrown := none } := by
  have hw : wireStatus res.statusCode = some res.statusCode :=
    wireStatus_of_range _ hlo hhi
  have hwire : (withETag rt b res).wire = none := by rw [withETag_wire]; exact hunsent
  simp [resSendBody, HState.enter, hunsent, withFreshness, hstale, endResponse, hw, hwire,
    withETag_statusCode]

/-- The run of `res.send(body)` on a response not yet sent, when the request is
fresh. -/
theorem resSendBody_fresh (rt : Runtime) (b : Body) (req : Req) (res : Res)
    (hunsent : res.wire = none)
    (hfresh : reqFresh rt req (withETag rt b res) = true) :
    resSendBody rt b (HState.enter req res)
      = { req := req
          res := { withETag rt b res with statusCode := 304, wire := some ⟨304, Body.empty⟩ }
          nexts := []
          thrown := none } := by
  have hw : wireStatus 304 = some 304 := wireStatus_of_range 304 (by omega) (by omega)
  have hwire : (withETag rt b res).wire = none := by rw [withETag_wire]; exact hunsent
  simp [resSendBody, HState.enter, hunsent, withFreshness, hfresh, endResponse, hw, hwire,
    stripsBody]

/-- The run of `res.send(body)` on a response already sent. -/
theorem resSendBody_sent (rt : Runtime) (b : Body) (req : Req) (res : Res) (r : Response)
    (hsent : res.wire = some r) :
    resSendBody rt b (HState.enter req res)
      = { req := req, res := res, nexts := [], thrown := some headersSentError } := by
  simp [resSendBody, HState.enter, hsent]

/-- The run of `res.send()` on a response not yet sent, when the request is not
fresh and the status code is one Node accepts. -/
theorem resSend_stale (rt : Runtime) (req : Req) (res : Res)
    (hunsent : res.wire = none) (hlo : 100 ≤ res.statusCode) (hhi : res.statusCode ≤ 999)
    (hstale : reqFresh rt req res = false) :
    resSend rt (HState.enter req res)
      = { req := req
          res := { res with wire := some ⟨res.statusCode, Body.empty⟩ }
          nexts := []
          thrown := none } := by
  have hw : wireStatus res.statusCode = some res.statusCode :=
    wireStatus_of_range _ hlo hhi
  simp [resSend, HState.enter, hunsent, withFreshness, hstale, endResponse, hw]

/-- The run of `res.send()` on a response not yet sent, when the request is
fresh. -/
theorem resSend_fresh (rt : Runtime) (req : Req) (res : Res)
    (hunsent : res.wire = none) (hfresh : reqFresh rt req res = true) :
    resSend rt (HState.enter req res)
      = { req := req
          res := { res with statusCode := 304, wire := some ⟨304, Body.empty⟩ }
          nexts := []
          thrown := none } := by
  have hw : wireStatus 304 = some 304 := wireStatus_of_range 304 (by omega) (by omega)
  simp [resSend, HState.enter, hunsent, withFreshness, hfresh, endResponse, hw]

/-- The run of `res.send()` on a response not yet sent, at a status code below
100: the write of the head throws and nothing is sent. -/
theorem resSend_small (rt : Runtime) (req : Req) (res : Res)
    (hunsent : res.wire = none) (hsmall : res.statusCode < 100) :
    resSend rt (HState.enter req res)
      = { req := req
          res := res
          nexts := []
          thrown := some (invalidStatusError res.statusCode) } := by
  have hstale : reqFresh rt req res = false :=
    reqFresh_of_status rt req res (by omega) (by omega)
  have hw : wireStatus res.statusCode = none := wireStatus_of_small _ hsmall
  have h204 : ¬ res.statusCode = 204 := by omega
  have h304 : ¬ res.statusCode = 304 := by omega
  have h205 : ¬ res.statusCode = 205 := by omega
  simp [resSend, HState.enter, hunsent, withFreshness, hstale, endResponse, hw, stripsBody,
    h204, h304, h205]

/-- A response already written survives `res.send()`. -/
theorem resSend_wire_sent (rt : Runtime) (s : HState) (r : Response)
    (hsent : s.res.wire = some r) :
    (resSend rt s).res.wire = some r := by
  have hf : (withFreshness rt s.req s.res).wire = some r := by
    unfold withFreshness
    split <;> simpa using hsent
  unfold resSend
  split
  · exact hsent
  · simp only []
    split
    · exact hf
    · simp [endResponse, hf]

theorem resStatus_enter (code : Nat) (req : Req) (res : Res) :
    resStatus code (HState.enter req res) = HState.enter req { res with statusCode := code } := by
  simp [resStatus, HState.enter]

/-- The development handler on a response already sent: `res.json` throws. -/
theorem devErrorHandler_sent (rt : Runtime) (e : JsError) (req : Req) (res : Res)
    (r : Response) (h : res.wire = some r) :
    devErrorHandler rt e (HState.enter req res)
      = { req := req
          res := { res with statusCode := jsOrNum e.status 500 }
          nexts := []
          thrown := some headersSentError } := by
  rw [devErrorHandler, resStatus_enter, resJsonObject,
    resSendBody_sent rt _ req { res with statusCode := jsOrNum e.status 500 } r h]

/-- The production handler leaves a response already written as it is. -/
theorem prodErrorHandler_sent (rt : Runtime) (e : JsError) (req : Req) (res : Res)
    (r : Response) (h : res.wire = some r) :
    (prodErrorHandler rt e (HState.enter req res)).res.wire = some r := by
  rw [prodErrorHandler, resStatus_enter]
  exact resSend_wire_sent rt _ r h

/-- The error handlers leave a response already written as it is, whatever the
error and whatever follows them. -/
theorem errorHandlers_sent (rt : Runtime) (nodeEnv : Option String) (e : JsError)
    (req : Req) (res : Res) (r : Response) (tr : List String) (h : res.wire = some r) :
    (dispatch (errorHandlers rt nodeEnv) (some e) req res tr).res.wire = some r := by
  have hprod : ∀ (e1 : JsError) (req1 : Req) (res1 : Res) (tr1 : List String),
      res1.wire = some r →
      (dispatch [Layer.errorHandler "prodErrorHandler" (prodErrorHandler rt)] (some e1)
        req1 res1 tr1).res.wire = some r := by
    intro e1 req1 res1 tr1 h1
    have hw := prodErrorHandler_sent rt e1 req1 res1 r h1
    simp only [dispatch]
    split
    · cases ‹Option JsError› <;> simpa [dispatch] using hw
    · simpa using hw
  cases hreg : devHandlerRegistered nodeEnv
  · simpa [errorHandlers, hreg] using hprod e req res tr h
  · simp only [errorHandlers, hreg, if_true, List.singleton_append, dispatch,
      devErrorHandler_sent rt e req res r h, continuation]
    exact hprod _ _ _ _ (by simpa using h)

/-! ## C1: the response to an unmatched route -/

/-- The 404 catch on a fresh response: the response it writes and its one call
to `next`. -/
theorem notFoundCatch_fresh (rt : Runtime) (req : Req) :
    (notFoundCatch rt (HState.enter req Res.fresh)).res.wire
        = some ⟨if reqFresh rt req (withETag rt (Body.json (JsVal.error notFoundError))
                    Res.fresh) = true then 304 else 200,
                if (reqFresh rt req (withETag rt (Body.json (JsVal.error notFoundError))
                    Res.fresh) || req.method == "HEAD") = true then Body.empty
                else Body.json (JsVal.error notFoundError)⟩
      ∧ (notFoundCatch rt (HState.enter req Res.fresh)).nexts = [some notFoundError]
      ∧ (notFoundCatch rt (HState.enter req Res.fresh)).thrown = none
      ∧ (notFoundCatch rt (HState.enter req Res.fresh)).req = req := by
  cases hf : reqFresh rt req (withETag rt (Body.json (JsVal.error notFoundError)) Res.fresh)
  · have hrun := resSendBody_stale rt (Body.json (JsVal.error notFoundError)) req Res.fresh rfl
      (by decide) (by decide) hf
    rw [notFoundCatch, resJson, hrun]
    simp [callNext, Res.fresh, stripsBody]
  · have hrun := resSendBody_fresh rt (Body.json (JsVal.error notFoundError)) req Res.fresh rfl hf
    rw [notFoundCatch, resJson, hrun]
    simp [callNext]

/-- C1 (evaluation of the code): for every value of NODE_ENV and every request
that reaches the 404 catch with a fresh response, the response the client
receives from the 404 catch followed by the registered error handlers is the
one the 404 catch writes with res.json: status 200 and the JSON of the error
object as body (no body for HEAD; status 304 and no body when the request is a
conditional one the entity tag satisfies); the error handlers that run
afterwards do not change it.  The status is never 404, and for a plain GET the
body is neither empty nor an object with a message and an error field. -/
theorem C1_unmatched_route_response (rt : Runtime) (nodeEnv : Option String) (req : Req) :
    (dispatch (fallthroughStack rt nodeEnv) none req Res.fresh []).res.wire
        = some ⟨if reqFresh rt req (withETag rt (Body.json (JsVal.error notFoundError))
                    Res.fresh) = true then 304 else 200,
                if (reqFresh rt req (withETag rt (Body.json (JsVal.error notFoundError))
                    Res.fresh) || req.method == "HEAD") = true then Body.empty
                else Body.json (JsVal.error notFoundError)⟩
      ∧ (dispatch (fallthroughStack rt nodeEnv) none req Res.fresh []).res.wire
        ≠ some ⟨404, Body.empty⟩
      ∧ (dispatch (fallthroughStack rt nodeEnv) none req Res.fresh []).res.wire
        ≠ some ⟨404, Body.jsonObject [("message", JsVal.str notFoundError.message),
            ("error", JsVal.error notFoundError)]⟩
      ∧ (dispatch (fallthroughStack rt nodeEnv) none sampleReq Res.fresh []).res.wire
        = some ⟨200, Body.json (JsVal.error notFoundError)⟩ := by
  have key : ∀ rq : Req, (dispatch (fallthroughStack rt nodeEnv) none rq Res.fresh []).res.wire
      = (notFoundCatch rt (HState.enter rq Res.fresh)).res.wire := by
    intro rq
    obtain ⟨hw, hn, ht, _⟩ := notFoundCatch_fresh rt rq
    simp only [fallthroughStack, dispatch, continuation, ht, hn, List.head?_cons]
    rw [errorHandlers_sent rt nodeEnv _ _ _ _ _ hw, hw]
  have hsample : reqFresh rt sampleReq
      (withETag rt (Body.json (JsVal.error notFoundError)) Res.fresh) = false :=
    reqFresh_unconditional rt sampleReq _ rfl rfl
  refine ⟨?_, ?_, ?_, ?_⟩
  · rw [key, (notFoundCatch_fresh rt req).1]
  · rw [key, (notFoundCatch_fresh rt req).1]
    split <;> simp
  · rw [key, (notFoundCatch_fresh rt req).1]
    split <;> simp
  · rw [key, (notFoundCatch_fresh rt sampleReq).1, hsample]
    simp [sampleReq]

/-! ## C2: the production error handler -/

/-- A GET with `If-None-Match: *` and no other conditional header is fresh at
every status 2xx. -/
theorem reqFresh_star (rt : Runtime) (req : Req) (res : Res)
    (hm : req.method = "GET") (h1 : req.ifNoneMatch = some "*")
    (h2 : req.ifModifiedSince = none) (h3 : req.cacheControl = none)
    (hlo : 200 ≤ res.statusCode) (hhi : res.statusCode < 300) :
    reqFresh rt req res = true := by
  simp [reqFresh, fresh, jsTruthy, hm, h1, h2, h3, hlo, hhi]

theorem endResponse_nexts (b : Body) (s : HState) : (endResponse b s).nexts = s.nexts := by
  unfold endResponse
  split
  · rfl
  · split <;> rfl

theorem resSend_nexts (rt : Runtime) (s : HState) : (resSend rt s).nexts = s.nexts := by
  unfold resSend
  split
  · rfl
  · simp only []
    split
    · rfl
    · rw [endResponse_nexts]

theorem resSendBody_nexts (rt : Runtime) (b : Body) (s : HState) :
    (resSendBody rt b s).nexts = s.nexts := by
  unfold resSendBody
  split
  · rfl
  · split
    · rfl
    · simp only []
      rw [endResponse_nexts]

theorem prodErrorHandler_nexts (rt : Runtime) (e : JsError) (req : Req) (res : Res) :
    (prodErrorHandler rt e (HState.enter req res)).nexts = [] := by
  rw [prodErrorHandler, resSend_nexts, resStatus_enter]
  rfl

theorem devErrorHandler_nexts (rt : Runtime) (e : JsError) (req : Req) (res : Res) :
    (devErrorHandler rt e (HState.enter req res)).nexts = [] := by
  rw [devErrorHandler, resJsonObject, resSendBody_nexts, resStatus_enter]
  rfl

/-- The stack of error handlers in production mode, when the production handler
returns without throwing: it is the only layer invoked. -/
theorem dispatch_prod (rt : Runtime) (nodeEnv : Option String) (e : JsError) (req : Req)
    (res res1 : Res) (rest : List Layer)
    (hreg : devHandlerRegistered nodeEnv = false)
    (hrun : prodErrorHandler rt e (HState.enter req res)
      = { req := req, res := res1, nexts := [], thrown := none }) :
    dispatch (errorHandlers rt nodeEnv ++ rest) (some e) req res []
      = { req := req, res := res1, trace := ["prodErrorHandler"], unhandled := none } := by
  simp [errorHandlers, hreg, dispatch, hrun, continuation]

/-- The stack of error handlers in development mode, when the development
handler returns without throwing: it is the only layer invoked. -/
theorem dispatch_dev (rt : Runtime) (nodeEnv : Option String) (e : JsError) (req : Req)
    (res res1 : Res) (rest : List Layer)
    (hreg : devHandlerRegistered nodeEnv = true)
    (hrun : devErrorHandler rt e (HState.enter req res)
      = { req := req, res := res1, nexts := [], thrown := none }) :
    dispatch (errorHandlers rt nodeEnv ++ rest) (some e) req res []
      = { req := req, res := res1, trace := ["devErrorHandler"], unhandled := none } := by
  simp [errorHandlers, hreg, dispatch, hrun, continuation]

theorem prodErrorHandler_stale (rt : Runtime) (e : JsError) (req : Req) (res : Res)
    (hunsent : res.wire = none) (hlo : 100 ≤ jsOrNum e.status 404)
    (hhi : jsOrNum e.status 404 ≤ 999)
    (hstale : reqFresh rt req { res with statusCode := jsOrNum e.status 404 } = false) :
    prodErrorHandler rt e (HState.enter req res)
      = { req := req
          res := { res with statusCode := jsOrNum e.status 404
                            wire := some ⟨jsOrNum e.status 404, Body.empty⟩ }
          nexts := []
          thrown := none } := by
  rw [prodErrorHandler, resStatus_enter,
    resSend_stale rt req { res with statusCode := jsOrNum e.status 404 } hunsent hlo hhi hstale]

theorem prodErrorHandler_fresh (rt : Runtime) (e : JsError) (req : Req) (res : Res)
    (hunsent : res.wire = none)
    (hfresh : reqFresh rt req { res with statusCode := jsOrNum e.status 404 } = true) :
    prodErrorHandler rt e (HState.enter req res)
      = { req := req
          res := { res with statusCode := 304, wire := some ⟨304, Body.empty⟩ }
          nexts := []
          thrown := none } := by
  rw [prodErrorHandler, resStatus_enter,
    resSend_fresh rt req { res with statusCode := jsOrNum e.status 404 } hunsent hfresh]

/-- C2 (counterexample): in production mode, on a plain GET with a fresh
response, an error whose status is the number 0 carries a status, yet the
response has status 404, not the status of the error; and for an error whose
status is 99 the write of the head throws, so this handler sends no response
at all and the error is left unhandled by the stack. -/
theorem C2_status_counterexample :
    appEnv (some "production") ≠ "development"
      ∧ zeroStatusError.status = some 0
      ∧ (dispatch (errorHandlers sampleRuntime (some "production")) (some zeroStatusError)
          sampleReq Res.fresh []).res.wire = some ⟨404, Body.empty⟩
      ∧ lowStatusError.status = some 99
      ∧ (prodErrorHandler sampleRuntime lowStatusError
          (HState.enter sampleReq Res.fresh)).thrown = some (invalidStatusError 99)
      ∧ (prodErrorHandler sampleRuntime lowStatusError
          (HState.enter sampleReq Res.fresh)).res.wire = none
      ∧ (dispatch (errorHandlers sampleRuntime (some "production")) (some lowStatusError)
          sampleReq Res.fresh []).unhandled = some (some (invalidStatusError 99))
      ∧ ¬ ∀ (e : JsError) (n : Nat), e.status = some n →
          (dispatch (errorHandlers sampleRuntime (some "production")) (some e) sampleReq
            Res.fresh []).res.wire = some ⟨n, Body.empty⟩ := by
  have hreg : devHandlerRegistered (some "production") = false := by decide
  have h0 : (dispatch (errorHandlers sampleRuntime (some "production")) (some zeroStatusError)
      sampleReq Res.fresh []).res.wire = some ⟨404, Body.empty⟩ := by
    have hrun := prodErrorHandler_stale sampleRuntime zeroStatusError sampleReq Res.fresh rfl
      (by decide) (by decide) (reqFresh_unconditional _ _ _ rfl rfl)
    have hd := dispatch_prod sampleRuntime (some "production") zeroStatusError sampleReq
      Res.fresh _ [] hreg hrun
    rw [List.append_nil] at hd
    rw [hd]
    rfl
  have hrun : prodErrorHandler sampleRuntime lowStatusError (HState.enter sampleReq Res.fresh)
      = { req := sampleReq
          res := { Res.fresh with statusCode := 99 }
          nexts := []
          thrown := some (invalidStatusError 99) } := by
    rw [prodErrorHandler, resStatus_enter]
    exact resSend_small sampleRuntime sampleReq { Res.fresh with statusCode := 99 } rfl
      (by decide)
  have h99 : (dispatch (errorHandlers sampleRuntime (some "production")) (some lowStatusError)
      sampleReq Res.fresh []).unhandled = some (some (invalidStatusError 99)) := by
    simp [errorHandlers, hreg, dispatch, hrun, continuation]
  refine ⟨by decide, rfl, h0, rfl, by rw [hrun], by rw [hrun]; rfl, h99, ?_⟩
  intro h
  have hz := h zeroStatusError 0 rfl
  rw [h0] at hz
  simp at hz

/-- C2 (amended): in production mode (app env is not development), for every
error propagated to the error handlers on a request with no response sent yet:
when the error carries a status from 200 to 999 and the request is not fresh,
the response has that status and an empty body; when the request is fresh (a
conditional GET or HEAD that the response satisfies, possible only at a status
2xx or 304) the response has status 304 and an empty body; when the error
carries no status or the status 0 the response has status 404 and an empty
body; in all these cases the production handler is the only layer invoked and
nothing is thrown; and the handler never calls a further stage. -/
theorem C2_production_error_response (rt : Runtime) (nodeEnv : Option String) (e : JsError)
    (req : Req) (res : Res) (rest : List Layer)
    (hprod : appEnv nodeEnv ≠ "development") (hunsent : res.wire = none) :
    (∀ n : Nat, e.status = some n → 200 ≤ n → n ≤ 999 →
        reqFresh rt req { res with statusCode := n } = false →
        dispatch (errorHandlers rt nodeEnv ++ rest) (some e) req res []
          = { req := req
              res := { res with statusCode := n, wire := some ⟨n, Body.empty⟩ }
              trace := ["prodErrorHandler"]
              unhandled := none })
      ∧ (∀ n : Nat, e.status = some n → 200 ≤ n → n ≤ 999 →
        reqFresh rt req { res with statusCode := n } = true →
        dispatch (errorHandlers rt nodeEnv ++ rest) (some e) req res []
          = { req := req
              res := { res with statusCode := 304, wire := some ⟨304, Body.empty⟩ }
              trace := ["prodErrorHandler"]
              unhandled := none })
      ∧ (e.status = none ∨ e.status = some 0 →
        dispatch (errorHandlers rt nodeEnv ++ rest) (some e) req res []
          = { req := req
              res := { res with statusCode := 404, wire := some ⟨404, Body.empty⟩ }
              trace := ["prodErrorHandler"]
              unhandled := none })
      ∧ (prodErrorHandler rt e (HState.enter req res)).nexts = [] := by
  have hreg : devHandlerRegistered nodeEnv = false := by
    simpa [devHandlerRegistered] using hprod
  refine ⟨?_, ?_, ?_, prodErrorHandler_nexts rt e req res⟩
  · intro n hn hlo hhi hstale
    have hs : jsOrNum e.status 404 = n := by rw [hn]; exact jsOrNum_of_pos n 404 (by omega)
    have hrun := prodErrorHandler_stale rt e req res hunsent (by omega) (by omega)
      (by rw [hs]; exact hstale)
    rw [hs] at hrun
    exact dispatch_prod rt nodeEnv e req res _ rest hreg hrun
  · intro n hn hlo hhi hfresh
    have hs : jsOrNum e.status 404 = n := by rw [hn]; exact jsOrNum_of_pos n 404 (by omega)
    have hrun := prodErrorHandler_fresh rt e req res hunsent (by rw [hs]; exact hfresh)
    exact dispatch_prod rt nodeEnv e req res _ rest hreg hrun
  · intro hn
    have hs : jsOrNum e.status 404 = 404 := by
      rcases hn with hn | hn <;> rw [hn] <;> rfl
    have hstale : reqFresh rt req { res with statusCode := jsOrNum e.status 404 } = false := by
      apply reqFresh_of_status <;> simp [hs]
    have hrun := prodErrorHandler_stale rt e req res hunsent (by omega) (by omega) hstale
    rw [hs] at hrun
    exact dispatch_prod rt nodeEnv e req res _ rest hreg hrun

/-- C2 (witness): the amended statement at NODE_ENV = production, an error with
status 418, a plain GET and a fresh response. -/
theorem C2_production_error_response_witness :
    appEnv (some "production") ≠ "development"
      ∧ Res.fresh.wire = none
      ∧ dispatch (errorHandlers sampleRuntime (some "production") ++ []) (some teapotError)
          sampleReq Res.fresh []
        = { req := sampleReq
            res := { Res.fresh with statusCode := 418, wire := some ⟨418, Body.empty⟩ }
            trace := ["prodErrorHandler"]
            unhandled := none } :=
  ⟨by decide, rfl,
    (C2_production_error_response sampleRuntime (some "production") teapotError sampleReq
      Res.fresh [] (by decide) rfl).1 418 rfl (by decide) (by decide)
      (reqFresh_unconditional _ _ _ rfl rfl)⟩

/-! ## C3: the development error handler -/

/-- The development handler on a response not yet sent, at a status from 200 to
999: it returns without throwing and without calling `next`, and writes the
status (304 when the request is fresh) with the object of line 180 as body,
or with no body for HEAD, for a fresh request and at a stripped status. -/
theorem devErrorHandler_valid (rt : Runtime) (e : JsError) (req : Req) (res : Res)
    (hunsent : res.wire = none) (hlo : 200 ≤ jsOrNum e.status 500)
    (hhi : jsOrNum e.status 500 ≤ 999) :
    (devErrorHandler rt e (HState.enter req res)).res.wire = some
        ⟨if reqFresh rt req (withETag rt
              (Body.jsonObject [("message", JsVal.str e.message), ("error", JsVal.error e)])
              { res with statusCode := jsOrNum e.status 500 }) = true
          then 304 else jsOrNum e.status 500,
         if (reqFresh rt req (withETag rt
              (Body.jsonObject [("message", JsVal.str e.message), ("error", JsVal.error e)])
              { res with statusCode := jsOrNum e.status 500 })
            || req.method == "HEAD" || stripsBody rt (jsOrNum e.status 500)) = true
          then Body.empty
          else Body.jsonObject [("message", JsVal.str e.message), ("error", JsVal.error e)]⟩
      ∧ (devErrorHandler rt e (HState.enter req res)).thrown = none
      ∧ (devErrorHandler rt e (HState.enter req res)).req = req := by
  have hdef : devErrorHandler rt e (HState.enter req res)
      = resSendBody rt
          (Body.jsonObject [("message", JsVal.str e.message), ("error", JsVal.error e)])
          (HState.enter req { res with statusCode := jsOrNum e.status 500 }) := by
    rw [devErrorHandler, resStatus_enter, resJsonObject, objLiteral_message_error]
  cases hf : reqFresh rt req (withETag rt
      (Body.jsonObject [("message", JsVal.str e.message), ("error", JsVal.error e)])
      { res with statusCode := jsOrNum e.status 500 })
  · have hrun := resSendBody_stale rt
      (Body.jsonObject [("message", JsVal.str e.message), ("error", JsVal.error e)]) req
      { res with statusCode := jsOrNum e.status 500 } hunsent (by simp; omega) hhi hf
    rw [hdef, hrun]
    refine ⟨?_, rfl, rfl⟩
    have h1 : ¬ jsOrNum e.status 500 ≤ 199 := by omega
    by_cases hh : req.method = "HEAD" <;> by_cases h204 : jsOrNum e.status 500 = 204 <;>
      by_cases h304 : jsOrNum e.status 500 = 304 <;>
      by_cases hs : stripsBody rt (jsOrNum e.status 500) = true <;>
      simp_all [stripsBody]
  · have hrun := resSendBody_fresh rt
      (Body.jsonObject [("message", JsVal.str e.message), ("error", JsVal.error e)]) req
      { res with statusCode := jsOrNum e.status 500 } hunsent hf
    rw [hdef, hrun]
    simp

/-- The stack of error handlers in development mode, when the development
handler neither throws nor calls `next`: it is the only layer invoked. -/
theorem dispatch_dev_terminal (rt : Runtime) (nodeEnv : Option String) (e : JsError)
    (req : Req) (res : Res) (rest : List Layer)
    (hreg : devHandlerRegistered nodeEnv = true)
    (hthrown : (devErrorHandler rt e (HState.enter req res)).thrown = none) :
    dispatch (errorHandlers rt nodeEnv ++ rest) (some e) req res []
      = { req := (devErrorHandler rt e (HState.enter req res)).req
          res := (devErrorHandler rt e (HState.enter req res)).res
          trace := ["devErrorHandler"]
          unhandled := none } := by
  simp [errorHandlers, hreg, dispatch, continuation, hthrown, devErrorHandler_nexts]

/-- C3 (counterexample): in development mode (NODE_ENV unset), on a plain GET
with a fresh response: an error whose status is the number 0 carries a status,
yet the response has status 500; an error with status 204 gets an empty body,
not the object with message and error; and for an error with status 99 the
development handler throws and the production handler registered after it is
invoked. -/
theorem C3_status_counterexample :
    appEnv none = "development"
      ∧ zeroStatusError.status = some 0
      ∧ (dispatch (errorHandlers sampleRuntime none) (some zeroStatusError) sampleReq
          Res.fresh []).res.wire
        = some ⟨500, Body.jsonObject [("message", JsVal.str "boom"),
            ("error", JsVal.error zeroStatusError)]⟩
      ∧ noContentError.status = some 204
      ∧ (dispatch (errorHandlers sampleRuntime none) (some noContentError) sampleReq
          Res.fresh []).res.wire = some ⟨204, Body.empty⟩
      ∧ lowStatusError.status = some 99
      ∧ (dispatch (errorHandlers sampleRuntime none) (some lowStatusError) sampleReq
          Res.fresh []).trace = ["devErrorHandler", "prodErrorHandler"]
      ∧ ¬ ∀ (e : JsError) (n : Nat), e.status = some n →
          ((dispatch (errorHandlers sampleRuntime none) (some e) sampleReq
            Res.fresh []).res.wire.map Response.status) = some n := by
  have h0 : (dispatch (errorHandlers sampleRuntime none) (some zeroStatusError) sampleReq
      Res.fresh []).res.wire
        = some ⟨500, Body.jsonObject [("message", JsVal.str "boom"),
            ("error", JsVal.error zeroStatusError)]⟩ := by
    rfl
  refine ⟨by decide, rfl, h0, rfl, by rfl, rfl, by rfl, ?_⟩
  intro h
  have hz := h zeroStatusError 0 rfl
  rw [h0] at hz
  simp at hz

/-- C3 (amended): in development mode (app env equals development), for every
error propagated to the error handlers on a request with no response sent yet:
when the error carries a status from 200 to 999 other than 204, 205 and 304,
the request is not HEAD and not fresh, the response has that status and as body
the object with exactly the fields message (the message of the error) and error
(the error itself); when the error carries no status or the status 0 and the
request is not HEAD, the same with status 500; at a status from 200 to 999 the
body is empty for HEAD and at 204 and 304, and a fresh request (a conditional
GET or HEAD that the response satisfies) gets status 304 and an empty body;
whenever the status (500 when absent or 0) lies in 200..999 the development
handler is the only layer invoked, so the production handler registered after
it is never invoked; and the handler never calls a further stage. -/
theorem C3_development_error_response (rt : Runtime) (nodeEnv : Option String) (e : JsError)
    (req : Req) (res : Res) (rest : List Layer)
    (hdev : appEnv nodeEnv = "development") (hunsent : res.wire = none) :
    (∀ n : Nat, e.status = some n → 200 ≤ n → n ≤ 999 → n ≠ 204 → n ≠ 205 → n ≠ 304 →
        req.method ≠ "HEAD" →
        reqFresh rt req (withETag rt
          (Body.jsonObject [("message", JsVal.str e.message), ("error", JsVal.error e)])
          { res with statusCode := n }) = false →
        (dispatch (errorHandlers rt nodeEnv ++ rest) (some e) req res []).res.wire
          = some ⟨n, Body.jsonObject [("message", JsVal.str e.message),
              ("error", JsVal.error e)]⟩)
      ∧ (e.status = none ∨ e.status = some 0 → req.method ≠ "HEAD" →
        (dispatch (errorHandlers rt nodeEnv ++ rest) (some e) req res []).res.wire
          = some ⟨500, Body.jsonObject [("message", JsVal.str e.message),
              ("error", JsVal.error e)]⟩)
      ∧ (∀ n : Nat, e.status = some n → 200 ≤ n → n ≤ 999 →
        req.method = "HEAD" ∨ n = 204 ∨ n = 304 →
        reqFresh rt req (withETag rt
          (Body.jsonObject [("message", JsVal.str e.message), ("error", JsVal.error e)])
          { res with statusCode := n }) = false →
        (dispatch (errorHandlers rt nodeEnv ++ rest) (some e) req res []).res.wire
          = some ⟨n, Body.empty⟩)
      ∧ (∀ n : Nat, e.status = some n → 200 ≤ n → n ≤ 999 →
        reqFresh rt req (withETag rt
          (Body.jsonObject [("message", JsVal.str e.message), ("error", JsVal.error e)])
          { res with statusCode := n }) = true →
        (dispatch (errorHandlers rt nodeEnv ++ rest) (some e) req res []).res.wire
          = some ⟨304, Body.empty⟩)
      ∧ objKeys [("message", JsVal.str e.message), ("error", JsVal.error e)]
          = ["message", "error"]
      ∧ (200 ≤ jsOrNum e.status 500 → jsOrNum e.status 500 ≤ 999 →
        (dispatch (errorHandlers rt nodeEnv ++ rest) (some e) req res []).trace
            = ["devErrorHandler"]
          ∧ "prodErrorHandler" ∉
              (dispatch (errorHandlers rt nodeEnv ++ rest) (some e) req res []).trace
          ∧ (dispatch (errorHandlers rt nodeEnv ++ rest) (some e) req res []).unhandled = none
          ∧ (dispatch (errorHandlers rt nodeEnv ++ rest) (some e) req res []).req = req)
      ∧ (devErrorHandler rt e (HState.enter req res)).nexts = [] := by
  have hreg : devHandlerRegistered nodeEnv = true := by
    simpa [devHandlerRegistered] using hdev
  have hrun : 200 ≤ jsOrNum e.status 500 → jsOrNum e.status 500 ≤ 999 →
      dispatch (errorHandlers rt nodeEnv ++ rest) (some e) req res []
        = { req := req
            res := (devErrorHandler rt e (HState.enter req res)).res
            trace := ["devErrorHandler"]
            unhandled := none } := by
    intro hlo hhi
    obtain ⟨_, ht, hr⟩ := devErrorHandler_valid rt e req res hunsent hlo hhi
    rw [dispatch_dev_terminal rt nodeEnv e req res rest hreg ht, hr]
  refine ⟨?_, ?_, ?_, ?_, rfl, ?_, devErrorHandler_nexts rt e req res⟩
  · intro n hn hlo hhi h204 h205 h304 hhead hstale
    have hs : jsOrNum e.status 500 = n := by rw [hn]; exact jsOrNum_of_pos n 500 (by omega)
    have hv := (devErrorHandler_valid rt e req res hunsent (by omega) (by omega)).1
    rw [hrun (by omega) (by omega)]
    rw [hs] at hv
    simp only [hv, hstale]
    simp [stripsBody, h204, h205, h304, hhead]
  · intro hn hhead
    have hs : jsOrNum e.status 500 = 500 := by
      rcases hn with hn | hn <;> rw [hn] <;> rfl
    have hv := (devErrorHandler_valid rt e req res hunsent (by omega) (by omega)).1
    have hstale : reqFresh rt req (withETag rt
        (Body.jsonObject [("message", JsVal.str e.message), ("error", JsVal.error e)])
        { res with statusCode := 500 }) = false := by
      apply reqFresh_of_status <;> simp [withETag_statusCode]
    rw [hrun (by omega) (by omega)]
    rw [hs] at hv
    simp only [hv, hstale]
    simp [stripsBody, hhead]
  · intro n hn hlo hhi hcase hstale
    have hs : jsOrNum e.status 500 = n := by rw [hn]; exact jsOrNum_of_pos n 500 (by omega)
    have hv := (devErrorHandler_valid rt e req res hunsent (by omega) (by omega)).1
    rw [hrun (by omega) (by omega)]
    rw [hs] at hv
    simp only [hv, hstale]
    rcases hcase with h | h | h <;> simp [stripsBody, h]
  · intro n hn hlo hhi hfresh
    have hs : jsOrNum e.status 500 = n := by rw [hn]; exact jsOrNum_of_pos n 500 (by omega)
    have hv := (devErrorHandler_valid rt e req res hunsent (by omega) (by omega)).1
    rw [hrun (by omega) (by omega)]
    rw [hs] at hv
    simp only [hv, hfresh]
    simp
  · intro hlo hhi
    rw [hrun hlo hhi]
    simp

/-- C3 (witness): the amended statement with NODE_ENV unset, an error with
status 418, a plain GET and a fresh response. -/
theorem C3_development_error_response_witness :
    appEnv none = "development"
      ∧ Res.fresh.wire = none
      ∧ (dispatch (errorHandlers sampleRuntime none ++ []) (some teapotError) sampleReq
          Res.fresh []).res.wire
        = some ⟨418, Body.jsonObject [("message", JsVal.str teapotError.message),
            ("error", JsVal.error teapotError)]⟩ :=
  ⟨by decide, rfl,
    (C3_development_error_response sampleRuntime none teapotError sampleReq Res.fresh []
      (by decide) rfl).1 418 rfl (by decide) (by decide) (by decide) (by decide) (by decide)
      (by decide) (reqFresh_unconditional _ _ _ rfl rfl)⟩

/-! ## C4: the heartbeat route -/

theorem statusMessage_200 : statusMessage 200 = some "OK" := by
  rfl

theorem heartbeat_eq (rt : Runtime) (req : Req) (res : Res) :
    heartbeat rt (HState.enter req res)
      = resSendBody rt (Body.text "OK") (HState.enter req { res with statusCode := 200 }) := by
  rw [heartbeat, resSendStatus, resStatus_enter, statusMessage_200]
  rfl

/-- C4 (counterexample): on a fresh response the heartbeat handler answers a
plain GET, carrying a session and the store handle, with status 200 and the
body OK, which is not the empty body; and it answers a GET with the header
If-None-Match: * with status 304, not 200. -/
theorem C4_heartbeat_counterexample :
    (heartbeat sampleRuntime (HState.enter heartbeatReq Res.fresh)).res.wire
        = some ⟨200, Body.text "OK"⟩
      ∧ (heartbeat sampleRuntime (HState.enter heartbeatReq Res.fresh)).res.wire
        ≠ some ⟨200, Body.empty⟩
      ∧ (heartbeat sampleRuntime (HState.enter conditionalHeartbeatReq Res.fresh)).res.wire
        = some ⟨304, Body.empty⟩ := by
  have h1 : (heartbeat sampleRuntime (HState.enter heartbeatReq Res.fresh)).res.wire
      = some ⟨200, Body.text "OK"⟩ := by
    rw [heartbeat_eq, resSendBody_stale sampleRuntime (Body.text "OK") heartbeatReq
      { Res.fresh with statusCode := 200 } rfl (by decide) (by decide)
      (reqFresh_unconditional _ _ _ rfl rfl)]
    rfl
  have h2 : (heartbeat sampleRuntime (HState.enter conditionalHeartbeatReq Res.fresh)).res.wire
      = some ⟨304, Body.empty⟩ := by
    rw [heartbeat_eq, resSendBody_fresh sampleRuntime (Body.text "OK") conditionalHeartbeatReq
      { Res.fresh with statusCode := 200 } rfl
      (reqFresh_star _ _ _ rfl rfl rfl rfl (by simp [withETag_statusCode])
        (by simp [withETag_statusCode]))]
  refine ⟨h1, ?_, h2⟩
  rw [h1]
  simp

/-- C4 (amended): for every request that reaches the heartbeat route with no
response sent yet, whatever its session and store handle: a GET that is not
fresh (in particular every GET without If-None-Match and If-Modified-Since)
gets status 200 and the status text OK as its body; a fresh request (a
conditional GET or HEAD that the response satisfies) gets status 304 and an
empty body; a HEAD that is not fresh gets status 200 and no body; the handler
throws nothing, calls no further stage and leaves the request unchanged. -/
theorem C4_heartbeat_response (rt : Runtime) (req : Req) (res : Res)
    (hunsent : res.wire = none) :
    (req.method ≠ "HEAD" →
        reqFresh rt req (withETag rt (Body.text "OK") { res with statusCode := 200 }) = false →
        (heartbeat rt (HState.enter req res)).res.wire = some ⟨200, Body.text "OK"⟩)
      ∧ (req.method ≠ "HEAD" → req.ifNoneMatch = none → req.ifModifiedSince = none →
        (heartbeat rt (HState.enter req res)).res.wire = some ⟨200, Body.text "OK"⟩)
      ∧ (reqFresh rt req (withETag rt (Body.text "OK") { res with statusCode := 200 }) = true →
        (heartbeat rt (HState.enter req res)).res.wire = some ⟨304, Body.empty⟩)
      ∧ (req.method = "HEAD" →
        reqFresh rt req (withETag rt (Body.text "OK") { res with statusCode := 200 }) = false →
        (heartbeat rt (HState.enter req res)).res.wire = some ⟨200, Body.empty⟩)
      ∧ (heartbeat rt (HState.enter req res)).nexts = []
      ∧ (heartbeat rt (HState.enter req res)).thrown = none
      ∧ (heartbeat rt (HState.enter req res)).req = req := by
  have hstale : reqFresh rt req (withETag rt (Body.text "OK") { res with statusCode := 200 })
      = false →
      heartbeat rt (HState.enter req res)
        = { req := req
            res := { withETag rt (Body.text "OK") { res with statusCode := 200 } with
                     wire := some ⟨200, if req.method = "HEAD" then Body.empty
                                        else Body.text "OK"⟩ }
            nexts := []
            thrown := none } := by
    intro hf
    rw [heartbeat_eq, resSendBody_stale rt (Body.text "OK") req { res with statusCode := 200 }
      hunsent (by simp) (by simp) hf]
    by_cases hh : req.method = "HEAD" <;> simp [stripsBody, hh]
  have hfresh : reqFresh rt req (withETag rt (Body.text "OK") { res with statusCode := 200 })
      = true →
      heartbeat rt (HState.enter req res)
        = { req := req
            res := { withETag rt (Body.text "OK") { res with statusCode := 200 } with
                     statusCode := 304, wire := some ⟨304, Body.empty⟩ }
            nexts := []
            thrown := none } := by
    intro hf
    rw [heartbeat_eq, resSendBody_fresh rt (Body.text "OK") req { res with statusCode := 200 }
      hunsent hf]
  refine ⟨?_, ?_, ?_, ?_, ?_, ?_, ?_⟩
  · intro hh hf
    rw [hstale hf]
    simp [hh]
  · intro hh h1 h2
    rw [hstale (reqFresh_unconditional rt req _ h1 h2)]
    simp [hh]
  · intro hf
    rw [hfresh hf]
  · intro hh hf
    rw [hstale hf]
    simp [hh]
  · rw [heartbeat_eq, resSendBody_nexts]
    rfl
  · cases hf : reqFresh rt req (withETag rt (Body.text "OK") { res with statusCode := 200 })
    · rw [hstale hf]
    · rw [hfresh hf]
  · cases hf : reqFresh rt req (withETag rt (Body.text "OK") { res with statusCode := 200 })
    · rw [hstale hf]
    · rw [hfresh hf]

/-- C4 (witness): the amended statement at a plain GET without session or store
handle. -/
theorem C4_heartbeat_response_witness :
    Res.fresh.wire = none
      ∧ sampleReq.method ≠ "HEAD"
      ∧ sampleReq.ifNoneMatch = none
      ∧ sampleReq.ifModifiedSince = none
      ∧ (heartbeat sampleRuntime (HState.enter sampleReq Res.fresh)).res.wire
        = some ⟨200, Body.text "OK"⟩ :=
  ⟨rfl, by decide, rfl, rfl,
    (C4_heartbeat_response sampleRuntime sampleReq Res.fresh rfl).2.1 (by decide) rfl rfl⟩

/-! ## C5: the stage discipline -/

theorem sessionGuard_run (req : Req) (res : Res) :
    sessionGuard (HState.enter req res)
      = { req := { req with session := some (req.session.getD []) }
          res := res
          nexts := [none]
          thrown := none } := by
  cases req with
  | mk m p inm ims cc sess d => cases sess <;> simp [sessionGuard, callNext, HState.enter]

theorem databaseMiddleware_run (db : Db) (req : Req) (res : Res) :
    databaseMiddleware db (HState.enter req res)
      = { req := { req with database := some db }
          res := res
          nexts := [none]
          thrown := none } := by
  simp [databaseMiddleware, callNext, HState.enter]

/-- The session guard and the database middleware obey the stage discipline;
so do, on a response not yet sent, the heartbeat handler and, at a status from
200 to 999, the two error handlers. -/
theorem other_stages_obey (rt : Runtime) (db : Db) (e : JsError) (req : Req) (res : Res)
    (h : res.wire = none) :
    obeysDiscipline res (sessionGuard (HState.enter req res)) = true
      ∧ obeysDiscipline res (databaseMiddleware db (HState.enter req res)) = true
      ∧ obeysDiscipline res (heartbeat rt (HState.enter req res)) = true
      ∧ (200 ≤ jsOrNum e.status 500 → jsOrNum e.status 500 ≤ 999 →
          obeysDiscipline res (devErrorHandler rt e (HState.enter req res)) = true)
      ∧ (200 ≤ jsOrNum e.status 404 → jsOrNum e.status 404 ≤ 999 →
          obeysDiscipline res (prodErrorHandler rt e (HState.enter req res)) = true) := by
  refine ⟨?_, ?_, ?_, ?_, ?_⟩
  · rw [sessionGuard_run]
    simp [obeysDiscipline, sentResponse, nextCount, h]
  · rw [databaseMiddleware_run]
    simp [obeysDiscipline, sentResponse, nextCount, h]
  · have hn : (heartbeat rt (HState.enter req res)).nexts = [] := by
      rw [heartbeat_eq, resSendBody_nexts]; rfl
    cases hf : reqFresh rt req (withETag rt (Body.text "OK") { res with statusCode := 200 })
    · have hw : (heartbeat rt (HState.enter req res)).res.wire.isSome = true := by
        rw [heartbeat_eq, resSendBody_stale rt (Body.text "OK") req
          { res with statusCode := 200 } h (by simp) (by simp) hf]
        rfl
      simp [obeysDiscipline, sentResponse, nextCount, h, hn, hw]
    · have hw : (heartbeat rt (HState.enter req res)).res.wire.isSome = true := by
        rw [heartbeat_eq, resSendBody_fresh rt (Body.text "OK") req
          { res with statusCode := 200 } h hf]
        rfl
      simp [obeysDiscipline, sentResponse, nextCount, h, hn, hw]
  · intro hlo hhi
    have hw := (devErrorHandler_valid rt e req res h hlo hhi).1
    simp [obeysDiscipline, sentResponse, nextCount, h, hw, devErrorHandler_nexts]
  · intro hlo hhi
    cases hf : reqFresh rt req { res with statusCode := jsOrNum e.status 404 }
    · rw [prodErrorHandler_stale rt e req res h (by omega) hhi hf]
      simp [obeysDiscipline, sentResponse, nextCount, h]
    · rw [prodErrorHandler_fresh rt e req res h hf]
      simp [obeysDiscipline, sentResponse, nextCount, h]

/-- C5 (evaluation of the code): on every request that reaches it with a fresh
response, the 404 catch both sends a response with res.json and calls the next
stage once with the error, so it does not obey the stage discipline, and it is
a stage other than the error handlers that sends a response on the error
path. -/
theorem C5_notFoundCatch_sends_and_continues (rt : Runtime) (req : Req) :
    sentResponse Res.fresh (notFoundCatch rt (HState.enter req Res.fresh)) = true
      ∧ (notFoundCatch rt (HState.enter req Res.fresh)).nexts = [some notFoundError]
      ∧ nextCount (notFoundCatch rt (HState.enter req Res.fresh)) = 1
      ∧ obeysDiscipline Res.fresh (notFoundCatch rt (HState.enter req Res.fresh)) = false := by
  obtain ⟨hw, hn, _, _⟩ := notFoundCatch_fresh rt req
  have hfresh : Res.fresh.wire.isNone = true := rfl
  simp [obeysDiscipline, sentResponse, nextCount, hw, hn, hfresh]

/-! ## C6: the session and cookie parser configuration -/

theorem lastPlace_eq (n e : Nat) (hlo : e = 0 ∨ 2 ^ (52 + e) ≤ n) (hhi : n < 2 ^ (53 + e)) :
    ∀ k e0 : Nat, e0 ≤ e → e < e0 + k → lastPlace n k e0 = some e := by
  intro k
  induction k with
  | zero => intro e0 h1 h2; omega
  | succ k ih =>
    intro e0 h1 h2
    by_cases heq : e0 = e
    · subst heq
      simp [lastPlace, hhi]
    · have hlt : e0 < e := by omega
      have hge : 2 ^ (52 + e) ≤ n := by
        rcases hlo with h | h
        · omega
        · exact h
      have hpow : 2 ^ (53 + e0) ≤ 2 ^ (52 + e) := Nat.pow_le_pow_right (by decide) (by omega)
      have hnot : ¬ n < 2 ^ (53 + e0) := by omega
      simp only [lastPlace, hnot, if_false]
      exact ih (e0 + 1) (by omega) (by omega)

/-- Below 2^53 every natural number is a double. -/
theorem roundToDouble_exact (n : Nat) (h : n < 2 ^ 53) :
    roundToDouble n = JsNumber.finite n := by
  have h0 : lastPlace n 972 0 = some 0 :=
    lastPlace_eq n 0 (Or.inl rfl) h 972 0 (by omega) (by omega)
  simp [roundToDouble, h0, Nat.mod_one]

/-- C6 (counterexample): with a session duration of 2^53 - 1 seconds the maxAge
given to the session middleware is 9007199254740990976, the double nearest to
the product, not the product 9007199254740991000. -/
theorem C6_maxAge_counterexample :
    longSessionSettings.server.sessionDurationSeconds = 9007199254740991
      ∧ (sessionOptions longSessionSettings).cookie.maxAge
        = JsNumber.finite 9007199254740990976
      ∧ (sessionOptions longSessionSettings).cookie.maxAge
        ≠ JsNumber.finite (longSessionSettings.server.sessionDurationSeconds * 1000) := by
  have h0 : lastPlace (9007199254740991 * 1000) 972 0 = some 10 :=
    lastPlace_eq _ 10 (Or.inr (by norm_num)) (by norm_num) 972 0 (by omega) (by omega)
  have hm : (sessionOptions longSessionSettings).cookie.maxAge
      = JsNumber.finite 9007199254740990976 := by
    show roundToDouble (9007199254740991 * 1000) = _
    rw [roundToDouble, h0]
    norm_num
  refine ⟨rfl, hm, ?_⟩
  rw [hm]
  simp [longSessionSettings]

/-- C6 (amended): for every settings record the session options have the cookie
name server.name followed by " Cookie", the secret server.name followed by
" SessionSecret" and httpOnly true, and the cookie parser receives the same
secret as the session; and when sessionDurationSeconds (a non-negative whole
number) times 1000 is below 2^53, maxAge equals sessionDurationSeconds times
1000. -/
theorem C6_session_configuration (st : Settings) :
    (sessionOptions st).name = st.server.name ++ " Cookie"
      ∧ (sessionOptions st).secret = st.server.name ++ " SessionSecret"
      ∧ (sessionOptions st).cookie.httpOnly = true
      ∧ (st.server.sessionDurationSeconds * 1000 < 2 ^ 53 →
          (sessionOptions st).cookie.maxAge
            = JsNumber.finite (st.server.sessionDurationSeconds * 1000))
      ∧ cookieParserSecret st = (sessionOptions st).secret :=
  ⟨rfl, rfl, rfl, fun h => roundToDouble_exact _ h, rfl⟩

/-- C6 (witness): with a session duration of one hour maxAge is 3600000. -/
theorem C6_session_configuration_witness :
    hourSessionSettings.server.sessionDurationSeconds * 1000 < 2 ^ 53
      ∧ (sessionOptions hourSessionSettings).cookie.maxAge = JsNumber.finite 3600000 :=
  ⟨by decide, (C6_session_configuration hourSessionSettings).2.2.2.1 (by decide)⟩

/-! ## C7: the request that reaches the routes -/

/-- C7: for every request and every stack of layers behind the session guard
and the database middleware, the layers behind are entered with no error
pending, with the response untouched, and with a request whose session is
defined and whose database is the shared store handle: the session the request
arrived with, unchanged, or the empty object when it arrived with none; every
other property of the request is unchanged. -/
theorem C7_request_context (db : Db) (req : Req) (res : Res) (rest : List Layer) :
    dispatch (contextStack db ++ rest) none req res []
        = dispatch rest none
            { req with session := some (req.session.getD []), database := some db }
            res ["sessionGuard", "databaseMiddleware"]
      ∧ (∀ sess, req.session = some sess → some (req.session.getD []) = some sess)
      ∧ (req.session = none → some (req.session.getD []) = some []) := by
  refine ⟨?_, ?_, ?_⟩
  · simp only [contextStack, List.cons_append, List.nil_append, dispatch, sessionGuard_run,
      databaseMiddleware_run, continuation]
    simp [dispatch, databaseMiddleware_run, continuation]
  · intro sess h
    simp [h]
  · intro h
    simp [h]

/-- C7 (witness): the heartbeat request, which arrives with a session, keeps
that session. -/
theorem C7_request_context_witness :
    heartbeatReq.session = some [("passport", JsVal.str "user-1")]
      ∧ some (heartbeatReq.session.getD []) = some [("passport", JsVal.str "user-1")] :=
  ⟨rfl,
    (C7_request_context ⟨"mongodb://localhost"⟩ heartbeatReq Res.fresh []).2.1
      [("passport", JsVal.str "user-1")] rfl⟩

/-! ## C8: termination signals -/

theorem deliverAll_exited (sigs : List Signal) (p : Proc) (h : p.exitCode.isSome = true) :
    deliverAll p sigs = p := by
  induction sigs with
  | nil => rfl
  | cons sig rest ih =>
    have hstep : deliver p sig = p := by simp [deliver, h]
    simpa [deliverAll, List.foldl_cons, hstep] using ih

/-- C8: SIGINT and SIGTERM are bound to the same cleanup handler, and for every
non-empty sequence of these signals delivered to a running process, the close
of the store connection is invoked exactly once more and the process has
exited with code 0; signals after the first cause no further close. -/
theorem C8_signals_close_once :
    (signalListener Signal.SIGINT = cleanup ∧ signalListener Signal.SIGTERM = cleanup)
      ∧ ∀ (sigs : List Signal) (p : Proc), sigs ≠ [] → p.exitCode = none →
          (deliverAll p sigs).dbCloseCalls = p.dbCloseCalls + 1
            ∧ (deliverAll p sigs).exitCode = some 0 := by
  refine ⟨⟨rfl, rfl⟩, ?_⟩
  intro sigs p hne hrun
  cases sigs with
  | nil => exact absurd rfl hne
  | cons sig rest =>
    have hfirst : deliver p sig = cleanup p := by
      cases sig <;> simp [deliver, hrun, signalListener]
    have hrest : deliverAll (cleanup p) rest = cleanup p :=
      deliverAll_exited rest (cleanup p) (by simp [cleanup, processExit])
    have hall : deliverAll p (sig :: rest) = cleanup p := by
      simpa [deliverAll, List.foldl_cons, hfirst] using hrest
    rw [hall]
    simp [cleanup, processExit, dbClose]

/-- C8 (witness): SIGINT followed by SIGTERM and SIGINT on a running process
with no close so far gives one close and exit code 0. -/
theorem C8_signals_close_once_witness :
    [Signal.SIGINT, Signal.SIGTERM, Signal.SIGINT] ≠ []
      ∧ (deliverAll ⟨0, none⟩ [Signal.SIGINT, Signal.SIGTERM, Signal.SIGINT]).dbCloseCalls = 0 + 1
      ∧ (deliverAll ⟨0, none⟩ [Signal.SIGINT, Signal.SIGTERM, Signal.SIGINT]).exitCode = some 0 :=
  ⟨by decide,
    C8_signals_close_once.2 [Signal.SIGINT, Signal.SIGTERM, Signal.SIGINT] ⟨0, none⟩
      (by decide) rfl⟩

/-! ## C9: the CORS options -/

/-- C9: the options object given to the CORS filter has origin true (the later
of the two origin properties, not the wildcard), credentials true,
preflightContinue false, the six allowed headers, the one exposed header and
the seven methods, and no other property. -/
theorem C9_cors_options :
    objGet corsOptions "origin" = JsVal.bool true
      ∧ objGet corsOptions "origin" ≠ JsVal.str "*"
      ∧ objGet corsOptions "credentials" = JsVal.bool true
      ∧ objGet corsOptions "preflightContinue" = JsVal.bool false
      ∧ objGet corsOptions "allowedHeaders"
          = JsVal.strs ["sessionId", "Origin", "X-Requested-With", "Content-Type",
              "Authorization", "Accept"]
      ∧ objGet corsOptions "exposedHeaders" = JsVal.strs ["sessionId"]
      ∧ objGet corsOptions "methods" = JsVal.str "GET,HEAD,PUT,PATCH,POST,DELETE,OPTIONS"
      ∧ objKeys corsOptions
          = ["allowedHeaders", "exposedHeaders", "origin", "methods", "preflightContinue",
              "credentials"] := by
  decide

/-! ## C10: the environment flag -/

/-- The access logger and the development error handler are selected together
exactly when NODE_ENV is neither `dev` nor `development`. -/
theorem logging_matches_devHandler_iff (nodeEnv : Option String) :
    loggingEnabled nodeEnv = devHandlerRegistered nodeEnv
      ↔ nodeEnv ≠ some "dev" ∧ nodeEnv ≠ some "development" := by
  cases nodeEnv with
  | none => decide
  | some v =>
    by_cases h1 : v = "dev"
    · subst h1; decide
    · by_cases h2 : v = "development"
      · subst h2; decide
      · by_cases h3 : v = ""
        · subst h3; decide
        · simp [loggingEnabled, devHandlerRegistered, loggerEnv, appEnv, jsOrStr, h1, h2, h3]

/-- C10 (evaluation of the code): with NODE_ENV set to development the
development error handler is registered and access logging is off; with
NODE_ENV set to dev access logging is on and the development error handler is
not registered; with NODE_ENV unset both are on. -/
theorem C10_logging_and_dev_handler_differ :
    (loggingEnabled (some "development") = false
        ∧ devHandlerRegistered (some "development") = true)
      ∧ (loggingEnabled (some "dev") = true ∧ devHandlerRegistered (some "dev") = false)
      ∧ (loggingEnabled none = true ∧ devHandlerRegistered none = true) := by
  decide

end WebServer
